import Mathlib

/-!
Verification of the DirectorApp webhook relay (src/server.js).

The server is a small Express application: it validates two required
environment variables at startup, exposes `GET /health`, handles
`POST /twilio-webhook` by extracting Twilio form fields, answering with a
fixed TwiML acknowledgment before forwarding a JSON payload to the main
application, and falls back to a structured 404 for unknown routes.

The embedding below is shallow: request bodies and process environments are
association lists of string fields; the webhook handler is a pure function
producing the ordered list of externally visible events (responses sent,
forward calls issued, log lines), parameterised by the point at which an
unexpected exception is raised (if any) and by the outcome of the outbound
axios call.  JavaScript-specific behaviour (`parseInt` returning NaN, string
truthiness, object destructuring defaults, `JSON.stringify` dropping
`undefined` properties) is modelled explicitly.
-/

namespace DirectorApp

/-- A request body (parsed form / JSON object): an association list from
field names to string values.  Express's body parsers produce an object;
absent fields read as `undefined`, modelled by `Option`. -/
abbrev ReqBody := List (String × String)

/-- Property lookup `reqBody[key]`: `none` models JavaScript `undefined`. -/
def lookupField (b : ReqBody) (k : String) : Option String :=
  (b.find? (fun p => p.1 == k)).map Prod.snd

/-- JavaScript string truthiness: a string is truthy iff it is nonempty. -/
def truthy (s : String) : Bool := s ≠ ""

/-- `parseInt(s, 10)`: skip leading whitespace, read an optional sign and
then the longest prefix of decimal digits; the result is NaN (modelled as
`none`) when that prefix is empty.  (src/server.js line 65) -/
def jsParseInt (s : String) : Option Int :=
  let cs := s.toList.dropWhile (fun c => c == ' ' || c == '\t' || c == '\n' || c == '\r')
  let signAndRest : Int × List Char :=
    match cs with
    | '-' :: rest => (-1, rest)
    | '+' :: rest => (1, rest)
    | _ => (1, cs)
  let ds := signAndRest.2.takeWhile Char.isDigit
  if ds.isEmpty then none
  else some (signAndRest.1 * (ds.foldl (fun acc c => acc * 10 + (c.toNat - 48)) 0 : Nat))

/-- The number of iterations of the `for (let i = 0; i < mediaCount; i++)`
loop (src/server.js line 67): when `mediaCount` is NaN every comparison
`i < mediaCount` is false and the loop body never runs, likewise when
`mediaCount` is negative; otherwise the loop runs `mediaCount` times. -/
def effectiveMediaCount (numMedia : String) : Nat :=
  match jsParseInt numMedia with
  | none => 0
  | some n => n.toNat

/-- The field name `"MediaUrl" + i` (src/server.js line 68). -/
def mediaUrlKey (i : Nat) : String := "MediaUrl" ++ toString i

/-- The media URL contributed by index `i`: the value of `MediaUrl{i}` when
that field is present and truthy, nothing otherwise (src/server.js
lines 68-71, the `if (mediaUrl)` guard). -/
def truthyUrlAt (b : ReqBody) (i : Nat) : Option String :=
  match lookupField b (mediaUrlKey i) with
  | some url => if truthy url then some url else none
  | none => none

/-- The `mediaUrls` array built by the loop at src/server.js lines 64-72. -/
def buildMediaUrls (b : ReqBody) (numMedia : String) : List String :=
  (List.range (effectiveMediaCount numMedia)).filterMap (truthyUrlAt b)

/-- The payload object constructed at src/server.js lines 78-85.  The object
literal always has these six properties; `from`, `to` and `messageId` hold
`undefined` (`none`) when the corresponding inbound field is absent. -/
structure ForwardPayload where
  «from» : Option String
  «to» : Option String
  body : String
  mediaUrls : List String
  messageId : Option String
  receivedAt : String
deriving DecidableEq, Repr

/-- The property names surviving JSON serialisation of the payload:
`JSON.stringify` omits properties whose value is `undefined`. -/
def ForwardPayload.serializedKeys (p : ForwardPayload) : List String :=
  (if p.«from».isSome then ["from"] else []) ++
  (if p.«to».isSome then ["to"] else []) ++
  ["body", "mediaUrls"] ++
  (if p.messageId.isSome then ["messageId"] else []) ++
  ["receivedAt"]

/-- Process configuration after a successful startup (src/server.js
lines 18-20). -/
structure Config where
  mainAppUrl : String
  supabaseAnonKey : String
  debugMode : Bool
deriving DecidableEq, Repr

/-- The outbound axios call issued at src/server.js lines 91-101:
method, URL, JSON payload, headers and timeout. -/
structure ForwardRequest where
  method : String
  url : String
  payload : ForwardPayload
  contentType : String
  authorization : String
  timeoutMs : Nat
deriving DecidableEq, Repr

/-- Destructure the inbound body (src/server.js lines 53-59: `Body`
defaults to the empty string, `NumMedia` to `"0"`; the defaults apply only
when the field is `undefined`) and build the forward payload
(lines 78-85).  `now` is the ISO-8601 timestamp taken at payload
construction, i.e. at forward time. -/
def mkPayload (b : ReqBody) (now : String) : ForwardPayload :=
  { «from» := lookupField b "From"
  , «to» := lookupField b "To"
  , body := (lookupField b "Body").getD ""
  , mediaUrls := buildMediaUrls b ((lookupField b "NumMedia").getD "0")
  , messageId := lookupField b "MessageSid"
  , receivedAt := now }

/-- The single outbound forward call (src/server.js lines 91-101). -/
def mkForwardRequest (cfg : Config) (b : ReqBody) (now : String) : ForwardRequest :=
  { method := "POST"
  , url := cfg.mainAppUrl ++ "/api/twilio/webhook"
  , payload := mkPayload b now
  , contentType := "application/json"
  , authorization := "Bearer " ++ cfg.supabaseAnonKey
  , timeoutMs := 30000 }

/-- The fixed TwiML acknowledgment document (src/server.js lines 75, 124). -/
def twiml : String := "<?xml version=\"1.0\" encoding=\"UTF-8\"?><Response></Response>"

/-- Outcome of the awaited axios call: a 2xx response resolves; a non-2xx
response, a network failure or a 30s timeout reject (axios throws). -/
inductive ForwardOutcome where
  | ok (status : Nat) (data : String)
  | httpError (status : Nat) (data : String)
  | networkError (message : String)
  | timeout
deriving DecidableEq, Repr

/-- `await axios.post(...)` as an `Except`: resolution yields the response,
rejection raises the error that the `catch (forwardError)` block receives. -/
def axiosResult (o : ForwardOutcome) : Except ForwardOutcome (Nat × String) :=
  match o with
  | ForwardOutcome.ok st d => Except.ok (st, d)
  | e => Except.error e

/-- `forwardError.message` for each rejection kind. -/
def outcomeMessage : ForwardOutcome → String
  | ForwardOutcome.ok _ _ => ""
  | ForwardOutcome.httpError st _ => "Request failed with status code " ++ toString st
  | ForwardOutcome.networkError m => m
  | ForwardOutcome.timeout => "timeout of 30000ms exceeded"

/-- Externally visible events of one request, in order: a response sent to
the provider, an outbound forward call, or a console log line. -/
inductive Event where
  | respond (status : Nat) (body : String)
  | forward (req : ForwardRequest)
  | log (msg : String)
deriving DecidableEq, Repr

/-- The responses sent to the provider within a trace. -/
def responsesOf (t : List Event) : List (Nat × String) :=
  t.filterMap (fun e =>
    match e with
    | Event.respond st b => some (st, b)
    | _ => none)

/-- The forward calls issued within a trace. -/
def forwardsOf (t : List Event) : List ForwardRequest :=
  t.filterMap (fun e =>
    match e with
    | Event.forward r => some r
    | _ => none)

/-- The provider-facing response of a request: the first (and in fact only)
response sent on its trace. -/
def providerResponse (t : List Event) : Option (Nat × String) :=
  (responsesOf t).head?

/-- The inner `try { await axios.post ... } catch (forwardError) { ... }`
(src/server.js lines 90-117): both branches only log; the rejection is
absorbed and in the non-2xx case the downstream status and data are also
logged.  In debug mode a successful forward additionally logs the response
data (lines 106-108). -/
def forwardLogs (cfg : Config) (o : ForwardOutcome) : List Event :=
  match axiosResult o with
  | Except.ok (_, d) =>
      Event.log "Successfully forwarded webhook" ::
      (if cfg.debugMode then [Event.log ("Forward response: " ++ d)] else [])
  | Except.error e =>
      Event.log ("Failed to forward webhook: " ++ outcomeMessage e) ::
      (match e with
       | ForwardOutcome.httpError st d =>
           [Event.log ("Response status: " ++ toString st),
            Event.log ("Response data: " ++ d)]
       | _ => [])

/-- Where, if anywhere, an unexpected exception is raised inside the outer
`try` of the handler: before `res.status(200).send(...)` runs, after it,
or not at all. -/
inductive CrashPoint where
  | noCrash
  | beforeSend
  | afterSend
deriving DecidableEq, Repr

/-- The body of the outer `try` block (src/server.js lines 49-117): the
events it emits, paired with the exception escaping to the outer `catch`
(`none` when it completes normally).  On the normal path it sends the 200
acknowledgment first, then issues the forward call and runs the inner
try/catch, which never rethrows. -/
def handlerTry (cfg : Config) (b : ReqBody) (now : String)
    (crash : CrashPoint) (o : ForwardOutcome) : List Event × Option String :=
  match crash with
  | CrashPoint.beforeSend => ([], some "unexpected error before response")
  | CrashPoint.afterSend => ([Event.respond 200 twiml], some "unexpected error after response")
  | CrashPoint.noCrash =>
      (Event.respond 200 twiml ::
       Event.forward (mkForwardRequest cfg b now) ::
       forwardLogs cfg o, none)

/-- The whole `POST /twilio-webhook` handler (src/server.js lines 48-127):
run the `try` body; if an exception reaches the outer `catch` and no
response has been sent yet (`!res.headersSent`), send the 500 error
acknowledgment, otherwise send nothing further. -/
def twilioWebhookHandler (cfg : Config) (b : ReqBody) (now : String)
    (crash : CrashPoint) (o : ForwardOutcome) : List Event :=
  match handlerTry cfg b now crash o with
  | (evs, none) => evs
  | (evs, some _) =>
      if (responsesOf evs).isEmpty then evs ++ [Event.respond 500 twiml]
      else evs

/-- Response body of `GET /health` (src/server.js lines 39-45). -/
structure HealthBody where
  status : String
  timestamp : String
  mainAppUrl : String
deriving DecidableEq, Repr

/-- The `GET /health` handler: always 200 with the fixed shape. -/
def healthHandler (cfg : Config) (now : String) : Nat × HealthBody :=
  (200, { status := "healthy", timestamp := now, mainAppUrl := cfg.mainAppUrl })

/-- Response body of the catch-all route (src/server.js lines 130-135). -/
structure NotFoundBody where
  error : String
  availableRoutes : List String
deriving DecidableEq, Repr

/-- The catch-all response for unmatched routes. -/
def notFoundResponse : Nat × NotFoundBody :=
  (404, { error := "Route not found", availableRoutes := ["/health", "/twilio-webhook"] })

/-- HTTP methods the app distinguishes. -/
inductive Method where
  | get
  | post
deriving DecidableEq, Repr

/-- Which registered handler a request reaches. -/
inductive RouteTarget where
  | health
  | webhook
  | notFound
deriving DecidableEq, Repr

/-- Express route dispatch for this app: `GET /health` and
`POST /twilio-webhook` are the only registered routes; everything else
falls through to the `app.use('*')` catch-all (src/server.js lines 39,
48, 130). -/
def dispatch (m : Method) (path : String) : RouteTarget :=
  if m == Method.get && path == "/health" then RouteTarget.health
  else if m == Method.post && path == "/twilio-webhook" then RouteTarget.webhook
  else RouteTarget.notFound

/-- Response body of the global error handler (src/server.js
lines 138-144). -/
structure ErrorBody where
  error : String
  message : String
deriving DecidableEq, Repr

/-- The global error boundary: 500 with the underlying message in debug
mode and a generic message otherwise. -/
def globalErrorHandler (debugMode : Bool) (errMessage : String) : Nat × ErrorBody :=
  (500, { error := "Internal server error"
        , message := if debugMode then errMessage else "Something went wrong" })

/-- A process environment: association list of environment variables. -/
abbrev Env := List (String × String)

/-- `process.env[k]`. -/
def envGet (env : Env) (k : String) : Option String :=
  (env.find? (fun p => p.1 == k)).map Prod.snd

/-- `!process.env[varName]` (src/server.js line 11): an environment value
is missing when it is absent or empty (JavaScript falsiness). -/
def envMissing (env : Env) (k : String) : Bool :=
  match envGet env k with
  | none => true
  | some s => s == ""

/-- The required variables (src/server.js line 10). -/
def requiredEnvVars : List String := ["MAIN_APP_URL", "SUPABASE_ANON_KEY"]

/-- The missing required variables (src/server.js line 11). -/
def missingEnvVars (env : Env) : List String :=
  requiredEnvVars.filter (fun v => envMissing env v)

/-- Result of module start: either `process.exit(code)` was called before
any route was served, or the server runs with the loaded configuration. -/
inductive StartupResult where
  | exited (code : Nat)
  | running (cfg : Config)
deriving DecidableEq, Repr

/-- Startup (src/server.js lines 10-20): exit with code 1 if any required
variable is missing, otherwise load the immutable configuration. -/
def startup (env : Env) : StartupResult :=
  if missingEnvVars env ≠ [] then StartupResult.exited 1
  else StartupResult.running
    { mainAppUrl := (envGet env "MAIN_APP_URL").getD ""
    , supabaseAnonKey := (envGet env "SUPABASE_ANON_KEY").getD ""
    , debugMode := envGet env "DEBUG_MODE" == some "true" }

/-- The attachment list as the claims describe it: scan indices `0..N-1`
in ascending order, appending the value of each `MediaUrl{i}` field that is
present and truthy; absent or falsy entries contribute nothing. -/
def specAttachments (b : ReqBody) : Nat → List String
  | 0 => []
  | n + 1 =>
      specAttachments b n ++
      (match lookupField b (mediaUrlKey n) with
       | some url => if truthy url then [url] else []
       | none => [])

/-- The example inbound request of the specification. -/
def exampleRequest : ReqBody :=
  [("From", "+1A"), ("To", "+1B"), ("Body", "hi"), ("MessageSid", "SM1"),
   ("NumMedia", "2"), ("MediaUrl0", "http://x/1.jpg")]

example : jsParseInt "2" = some 2 := by decide
example : jsParseInt "abc" = none := by decide
example : jsParseInt "-3" = some (-3) := by decide
example : buildMediaUrls exampleRequest "2" = ["http://x/1.jpg"] := by decide

/-- The loop of src/server.js lines 67-72 computes exactly the ascending
scan described by the specification. -/
lemma range_filterMap_eq_specAttachments (b : ReqBody) (n : Nat) :
    (List.range n).filterMap (truthyUrlAt b) = specAttachments b n := by
  induction n with
  | zero => rfl
  | succ m ih =>
      rw [List.range_succ, List.filterMap_append, ih, specAttachments]
      congr 1
      simp only [List.filterMap, truthyUrlAt]
      cases h : lookupField b (mediaUrlKey m) with
      | none => simp [h]
      | some url =>
          by_cases ht : truthy url
          · simp [h, ht]
          · simp [h, ht]

/-- The scan over `0..n-1` yields at most `n` URLs. -/
lemma specAttachments_length_le (b : ReqBody) (n : Nat) :
    (specAttachments b n).length ≤ n := by
  induction n with
  | zero => simp [specAttachments]
  | succ m ih =>
      rw [specAttachments, List.length_append]
      have h1 : (match lookupField b (mediaUrlKey m) with
          | some url => if truthy url then [url] else []
          | none => ([] : List String)).length ≤ 1 := by
        cases h : lookupField b (mediaUrlKey m) with
        | none => simp
        | some url =>
            by_cases ht : truthy url
            · simp [ht]
            · simp [ht]
      omega

/-- When `NumMedia` parses to the nonnegative integer `N`, the loop bound
is `N`. -/
lemma effectiveMediaCount_of_parse (nm : String) (N : Nat)
    (h : jsParseInt nm = some (N : Int)) : effectiveMediaCount nm = N := by
  simp [effectiveMediaCount, h]

/-- If `NumMedia` has no leading digits, `parseInt` yields NaN and the loop
bound is zero. -/
lemma effectiveMediaCount_of_nan (nm : String)
    (h : jsParseInt nm = none) : effectiveMediaCount nm = 0 := by
  simp [effectiveMediaCount, h]

/-- On the normal path the handler trace is the 200 acknowledgment, then
the forward call, then the logs of the forward outcome. -/
lemma handler_noCrash (cfg : Config) (b : ReqBody) (now : String)
    (o : ForwardOutcome) :
    twilioWebhookHandler cfg b now CrashPoint.noCrash o =
      Event.respond 200 twiml ::
      Event.forward (mkForwardRequest cfg b now) ::
      forwardLogs cfg o := by
  rfl

/-- The forward-outcome logging emits no provider response. -/
lemma responsesOf_forwardLogs (cfg : Config) (o : ForwardOutcome) :
    responsesOf (forwardLogs cfg o) = [] := by
  cases o with
  | ok st d =>
      by_cases hd : cfg.debugMode
      · simp [forwardLogs, axiosResult, responsesOf, hd]
      · simp [forwardLogs, axiosResult, responsesOf, hd]
  | httpError st d => simp [forwardLogs, axiosResult, responsesOf]
  | networkError m => simp [forwardLogs, axiosResult, responsesOf]
  | timeout => simp [forwardLogs, axiosResult, responsesOf]

/-- The forward-outcome logging issues no forward call. -/
lemma forwardsOf_forwardLogs (cfg : Config) (o : ForwardOutcome) :
    forwardsOf (forwardLogs cfg o) = [] := by
  cases o with
  | ok st d =>
      by_cases hd : cfg.debugMode
      · simp [forwardLogs, axiosResult, forwardsOf, hd]
      · simp [forwardLogs, axiosResult, forwardsOf, hd]
  | httpError st d => simp [forwardLogs, axiosResult, forwardsOf]
  | networkError m => simp [forwardLogs, axiosResult, forwardsOf]
  | timeout => simp [forwardLogs, axiosResult, forwardsOf]

/-- On the normal path the provider sees exactly one response: 200 with the
fixed TwiML document, whatever the forward outcome. -/
lemma responsesOf_handler_noCrash (cfg : Config) (b : ReqBody) (now : String)
    (o : ForwardOutcome) :
    responsesOf (twilioWebhookHandler cfg b now CrashPoint.noCrash o) =
      [(200, twiml)] := by
  rw [handler_noCrash]
  have h := responsesOf_forwardLogs cfg o
  unfold responsesOf at h ⊢
  simp only [List.filterMap_cons, h]

/-- On the normal path exactly one forward call is issued. -/
lemma forwardsOf_handler_noCrash (cfg : Config) (b : ReqBody) (now : String)
    (o : ForwardOutcome) :
    forwardsOf (twilioWebhookHandler cfg b now CrashPoint.noCrash o) =
      [mkForwardRequest cfg b now] := by
  rw [handler_noCrash]
  have h := forwardsOf_forwardLogs cfg o
  unfold forwardsOf at h ⊢
  simp only [List.filterMap_cons, h]

/-- C1: For every well-formed inbound request to POST /twilio-webhook, the
handler responds with HTTP status 200 and the exact body
`<?xml version="1.0" encoding="UTF-8"?><Response></Response>`, regardless
of whether the downstream forward call succeeds, fails with a network
error, returns a non-2xx status, or times out; the forward outcome never
changes the already-determined provider response. -/
theorem C1_webhook_always_acks_200 (cfg : Config) (b : ReqBody) (now : String)
    (o o2 : ForwardOutcome) :
    responsesOf (twilioWebhookHandler cfg b now CrashPoint.noCrash o) =
      [(200, "<?xml version=\"1.0\" encoding=\"UTF-8\"?><Response></Response>")] ∧
    providerResponse (twilioWebhookHandler cfg b now CrashPoint.noCrash o) =
      some (200, twiml) ∧
    responsesOf (twilioWebhookHandler cfg b now CrashPoint.noCrash o) =
      responsesOf (twilioWebhookHandler cfg b now CrashPoint.noCrash o2) := by
  refine ⟨responsesOf_handler_noCrash cfg b now o, ?_, ?_⟩
  · unfold providerResponse
    rw [responsesOf_handler_noCrash]
    rfl
  · rw [responsesOf_handler_noCrash, responsesOf_handler_noCrash]

/-- C2: For every attachment count `N` parsed from `NumMedia` and every
assignment of present/absent `MediaUrl0..MediaUrl(N-1)` fields, the
constructed attachment URL list is exactly the ascending scan of indices
`0..N-1` keeping the present-and-truthy URL fields, has length at most `N`,
and a string belongs to it iff some index below `N` carries it as a
present truthy field — so absent or falsy fields contribute nothing and
fields at indices `≥ N` are ignored. -/
theorem C2_attachment_list (b : ReqBody) (nm : String) (N : Nat) (u : String)
    (h : jsParseInt nm = some (N : Int)) :
    buildMediaUrls b nm = specAttachments b N ∧
    (buildMediaUrls b nm).length ≤ N ∧
    (u ∈ buildMediaUrls b nm ↔ ∃ i, i < N ∧ truthyUrlAt b i = some u) := by
  have hc : effectiveMediaCount nm = N := effectiveMediaCount_of_parse nm N h
  unfold buildMediaUrls
  rw [hc]
  refine ⟨range_filterMap_eq_specAttachments b N, ?_, ?_⟩
  · rw [range_filterMap_eq_specAttachments b N]
    exact specAttachments_length_le b N
  · rw [List.mem_filterMap]
    constructor
    · rintro ⟨i, hi, hu⟩
      exact ⟨i, List.mem_range.mp hi, hu⟩
    · rintro ⟨i, hi, hu⟩
      exact ⟨i, List.mem_range.mpr hi, hu⟩

/-- C2 witness: on the specification's example request with `NumMedia = "2"`,
the theorem instantiates and all hypotheses hold. -/
theorem C2_attachment_list_witness :
    buildMediaUrls exampleRequest "2" = specAttachments exampleRequest 2 ∧
    (buildMediaUrls exampleRequest "2").length ≤ 2 ∧
    ("http://x/1.jpg" ∈ buildMediaUrls exampleRequest "2" ↔
      ∃ i, i < 2 ∧ truthyUrlAt exampleRequest i = some "http://x/1.jpg") :=
  C2_attachment_list exampleRequest "2" 2 "http://x/1.jpg" (by decide)

/-- C3: In the POST /twilio-webhook handler, the provider acknowledgment is
sent strictly before the outbound forward call is initiated (the trace is
the 200 acknowledgment, then the forward, then only logs); if the
downstream call subsequently fails or times out the provider-facing
response is unaffected, and no exception escapes the handler (the `try`
body completes without an escaping error and every outcome yields a
well-defined trace). -/
theorem C3_ack_precedes_forward (cfg : Config) (b : ReqBody) (now : String)
    (o o2 : ForwardOutcome) :
    twilioWebhookHandler cfg b now CrashPoint.noCrash o =
      Event.respond 200 twiml ::
      Event.forward (mkForwardRequest cfg b now) ::
      forwardLogs cfg o ∧
    (handlerTry cfg b now CrashPoint.noCrash o).2 = none ∧
    responsesOf (forwardLogs cfg o) = [] ∧
    responsesOf (twilioWebhookHandler cfg b now CrashPoint.noCrash o) =
      responsesOf (twilioWebhookHandler cfg b now CrashPoint.noCrash o2) ∧
    forwardsOf (twilioWebhookHandler cfg b now CrashPoint.noCrash o) =
      [mkForwardRequest cfg b now] := by
  refine ⟨handler_noCrash cfg b now o, rfl, responsesOf_forwardLogs cfg o, ?_,
    forwardsOf_handler_noCrash cfg b now o⟩
  rw [responsesOf_handler_noCrash, responsesOf_handler_noCrash]

/-- C5: For every request whose `NumMedia` field is absent or whose value
is non-numeric (no parseable leading integer, hence `parseInt` NaN), the
attachment count is treated as zero: the resulting attachment URL list is
empty, identical to the list produced for `NumMedia = "0"`. -/
theorem C5_nan_count_is_zero (b : ReqBody) (nm : String) (now : String)
    (h : jsParseInt nm = none) :
    buildMediaUrls b nm = [] ∧
    buildMediaUrls b nm = buildMediaUrls b "0" ∧
    (lookupField b "NumMedia" = none →
      (mkPayload b now).mediaUrls = [] ∧
      (mkPayload b now).mediaUrls = buildMediaUrls b "0") := by
  have h0 : buildMediaUrls b "0" = [] := by
    unfold buildMediaUrls
    have : effectiveMediaCount "0" = 0 :=
      effectiveMediaCount_of_parse "0" 0 (by decide)
    rw [this]
    rfl
  have hn : buildMediaUrls b nm = [] := by
    unfold buildMediaUrls
    rw [effectiveMediaCount_of_nan nm h]
    rfl
  refine ⟨hn, by rw [hn, h0], ?_⟩
  intro habs
  have : (mkPayload b now).mediaUrls = buildMediaUrls b "0" := by
    unfold mkPayload
    rw [habs]
    rfl
  exact ⟨by rw [this, h0], this⟩

/-- C5 witness: a request with no `NumMedia` field and the non-numeric
count string `"abc"`. -/
theorem C5_nan_count_is_zero_witness :
    buildMediaUrls [("From", "+1A")] "abc" = [] ∧
    buildMediaUrls [("From", "+1A")] "abc" = buildMediaUrls [("From", "+1A")] "0" ∧
    (lookupField [("From", "+1A")] "NumMedia" = none →
      (mkPayload [("From", "+1A")] "2024-01-01T00:00:00.000Z").mediaUrls = [] ∧
      (mkPayload [("From", "+1A")] "2024-01-01T00:00:00.000Z").mediaUrls =
        buildMediaUrls [("From", "+1A")] "0") :=
  C5_nan_count_is_zero [("From", "+1A")] "abc" "2024-01-01T00:00:00.000Z" (by decide)

/-- C4: For every inbound webhook request, the single outbound forward call
is an HTTP POST to `{downstream base URL}/api/twilio/webhook` whose JSON
body has exactly the keys `from, to, body, mediaUrls, messageId,
receivedAt` (when the optional inbound fields are present) — with `from`,
`to`, `body`, `messageId` equal to the inbound `From`, `To`, `Body`,
`MessageSid` fields (`Body` defaulting to the empty string), `mediaUrls`
the constructed attachment list and `receivedAt` the forward-time
timestamp — sent with `Content-Type: application/json`,
`Authorization: Bearer {credential}` and a 30000 ms timeout; on the
specification's example request the forwarded `mediaUrls` is
`["http://x/1.jpg"]`. -/
theorem C4_forward_request_shape (cfg : Config) (b : ReqBody) (now : String)
    (o : ForwardOutcome)
    (hf : (lookupField b "From").isSome = true)
    (ht : (lookupField b "To").isSome = true)
    (hm : (lookupField b "MessageSid").isSome = true) :
    (mkForwardRequest cfg b now).method = "POST" ∧
    (mkForwardRequest cfg b now).url = cfg.mainAppUrl ++ "/api/twilio/webhook" ∧
    (mkForwardRequest cfg b now).contentType = "application/json" ∧
    (mkForwardRequest cfg b now).authorization = "Bearer " ++ cfg.supabaseAnonKey ∧
    (mkForwardRequest cfg b now).timeoutMs = 30000 ∧
    (mkForwardRequest cfg b now).payload.«from» = lookupField b "From" ∧
    (mkForwardRequest cfg b now).payload.«to» = lookupField b "To" ∧
    (mkForwardRequest cfg b now).payload.body = (lookupField b "Body").getD "" ∧
    (mkForwardRequest cfg b now).payload.messageId = lookupField b "MessageSid" ∧
    (mkForwardRequest cfg b now).payload.mediaUrls =
      buildMediaUrls b ((lookupField b "NumMedia").getD "0") ∧
    (mkForwardRequest cfg b now).payload.receivedAt = now ∧
    (mkForwardRequest cfg b now).payload.serializedKeys =
      ["from", "to", "body", "mediaUrls", "messageId", "receivedAt"] ∧
    forwardsOf (twilioWebhookHandler cfg b now CrashPoint.noCrash o) =
      [mkForwardRequest cfg b now] ∧
    (mkForwardRequest cfg exampleRequest now).payload.mediaUrls = ["http://x/1.jpg"] := by
  refine ⟨rfl, rfl, rfl, rfl, rfl, rfl, rfl, rfl, rfl, rfl, rfl, ?_,
    forwardsOf_handler_noCrash cfg b now o, ?_⟩
  · simp [mkForwardRequest, mkPayload, ForwardPayload.serializedKeys, hf, ht, hm]
  · show buildMediaUrls exampleRequest
        ((lookupField exampleRequest "NumMedia").getD "0") = ["http://x/1.jpg"]
    decide

/-- C4 witness: the theorem instantiated on the specification's example
request and a concrete configuration and forward outcome. -/
theorem C4_forward_request_shape_witness :
    (mkForwardRequest (Config.mk "https://main.example" "KEY" false) exampleRequest
        "2024-01-01T00:00:00.000Z").method = "POST" ∧
    (mkForwardRequest (Config.mk "https://main.example" "KEY" false) exampleRequest
        "2024-01-01T00:00:00.000Z").url =
      "https://main.example" ++ "/api/twilio/webhook" ∧
    (mkForwardRequest (Config.mk "https://main.example" "KEY" false) exampleRequest
        "2024-01-01T00:00:00.000Z").contentType = "application/json" ∧
    (mkForwardRequest (Config.mk "https://main.example" "KEY" false) exampleRequest
        "2024-01-01T00:00:00.000Z").authorization = "Bearer " ++ "KEY" ∧
    (mkForwardRequest (Config.mk "https://main.example" "KEY" false) exampleRequest
        "2024-01-01T00:00:00.000Z").timeoutMs = 30000 ∧
    (mkForwardRequest (Config.mk "https://main.example" "KEY" false) exampleRequest
        "2024-01-01T00:00:00.000Z").payload.«from» = lookupField exampleRequest "From" ∧
    (mkForwardRequest (Config.mk "https://main.example" "KEY" false) exampleRequest
        "2024-01-01T00:00:00.000Z").payload.«to» = lookupField exampleRequest "To" ∧
    (mkForwardRequest (Config.mk "https://main.example" "KEY" false) exampleRequest
        "2024-01-01T00:00:00.000Z").payload.body =
      (lookupField exampleRequest "Body").getD "" ∧
    (mkForwardRequest (Config.mk "https://main.example" "KEY" false) exampleRequest
        "2024-01-01T00:00:00.000Z").payload.messageId =
      lookupField exampleRequest "MessageSid" ∧
    (mkForwardRequest (Config.mk "https://main.example" "KEY" false) exampleRequest
        "2024-01-01T00:00:00.000Z").payload.mediaUrls =
      buildMediaUrls exampleRequest ((lookupField exampleRequest "NumMedia").getD "0") ∧
    (mkForwardRequest (Config.mk "https://main.example" "KEY" false) exampleRequest
        "2024-01-01T00:00:00.000Z").payload.receivedAt = "2024-01-01T00:00:00.000Z" ∧
    (mkForwardRequest (Config.mk "https://main.example" "KEY" false) exampleRequest
        "2024-01-01T00:00:00.000Z").payload.serializedKeys =
      ["from", "to", "body", "mediaUrls", "messageId", "receivedAt"] ∧
    forwardsOf (twilioWebhookHandler (Config.mk "https://main.example" "KEY" false)
        exampleRequest "2024-01-01T00:00:00.000Z" CrashPoint.noCrash
        (ForwardOutcome.ok 200 "accepted")) =
      [mkForwardRequest (Config.mk "https://main.example" "KEY" false) exampleRequest
        "2024-01-01T00:00:00.000Z"] ∧
    (mkForwardRequest (Config.mk "https://main.example" "KEY" false) exampleRequest
        "2024-01-01T00:00:00.000Z").payload.mediaUrls = ["http://x/1.jpg"] :=
  C4_forward_request_shape (Config.mk "https://main.example" "KEY" false) exampleRequest
    "2024-01-01T00:00:00.000Z" (ForwardOutcome.ok 200 "accepted")
    (by decide) (by decide) (by decide)

/-- C6: If an unexpected exception occurs in the handler before the
acknowledgment is sent, the handler responds with the same fixed XML
document at status 500 instead of propagating the failure; if the
exception occurs after the response was sent, no second response is
attempted (exactly the one 200 acknowledgment is ever sent). -/
theorem C6_crash_boundary (cfg : Config) (b : ReqBody) (now : String)
    (o : ForwardOutcome) :
    twilioWebhookHandler cfg b now CrashPoint.beforeSend o =
      [Event.respond 500 twiml] ∧
    responsesOf (twilioWebhookHandler cfg b now CrashPoint.beforeSend o) =
      [(500, twiml)] ∧
    twilioWebhookHandler cfg b now CrashPoint.afterSend o =
      [Event.respond 200 twiml] ∧
    responsesOf (twilioWebhookHandler cfg b now CrashPoint.afterSend o) =
      [(200, twiml)] := by
  exact ⟨rfl, rfl, rfl, rfl⟩

/-- C7: At startup, if either required configuration value (`MAIN_APP_URL`
or `SUPABASE_ANON_KEY`) is missing from the environment, the process exits
with the non-zero code 1 before serving any request; if both are present,
startup proceeds to a running server with the loaded configuration. -/
theorem C7_startup_validation (env : Env) :
    ((envMissing env "MAIN_APP_URL" = true ∨ envMissing env "SUPABASE_ANON_KEY" = true) →
      startup env = StartupResult.exited 1 ∧ (1 : Nat) ≠ 0) ∧
    (envMissing env "MAIN_APP_URL" = false → envMissing env "SUPABASE_ANON_KEY" = false →
      startup env = StartupResult.running
        { mainAppUrl := (envGet env "MAIN_APP_URL").getD ""
        , supabaseAnonKey := (envGet env "SUPABASE_ANON_KEY").getD ""
        , debugMode := envGet env "DEBUG_MODE" == some "true" }) := by
  constructor
  · intro h
    refine ⟨?_, by omega⟩
    have hne : missingEnvVars env ≠ [] := by
      unfold missingEnvVars requiredEnvVars
      rcases h with h | h
      · simp [List.filter, h]
      · simp only [List.filter, h]
        cases envMissing env "MAIN_APP_URL" <;> simp
    unfold startup
    rw [if_pos hne]
  · intro h1 h2
    have hmv : missingEnvVars env = [] := by
      unfold missingEnvVars requiredEnvVars
      simp [List.filter, h1, h2]
    unfold startup
    rw [if_neg (by rw [hmv]; exact fun hc => hc rfl)]

/-- C7 witness: an environment missing `MAIN_APP_URL` exits with code 1; an
environment providing both values yields a running server. -/
theorem C7_startup_validation_witness :
    (startup [("SUPABASE_ANON_KEY", "key")] = StartupResult.exited 1 ∧ (1 : Nat) ≠ 0) ∧
    startup [("MAIN_APP_URL", "https://main.example"), ("SUPABASE_ANON_KEY", "key")] =
      StartupResult.running
        { mainAppUrl := (envGet [("MAIN_APP_URL", "https://main.example"),
            ("SUPABASE_ANON_KEY", "key")] "MAIN_APP_URL").getD ""
        , supabaseAnonKey := (envGet [("MAIN_APP_URL", "https://main.example"),
            ("SUPABASE_ANON_KEY", "key")] "SUPABASE_ANON_KEY").getD ""
        , debugMode := envGet [("MAIN_APP_URL", "https://main.example"),
            ("SUPABASE_ANON_KEY", "key")] "DEBUG_MODE" == some "true" } :=
  ⟨(C7_startup_validation [("SUPABASE_ANON_KEY", "key")]).1 (Or.inl (by decide)),
   (C7_startup_validation [("MAIN_APP_URL", "https://main.example"),
     ("SUPABASE_ANON_KEY", "key")]).2 (by decide) (by decide)⟩

/-- C8: Every request to a path other than the recognized endpoints reaches
the catch-all and gets HTTP 404 with a JSON body whose `error` field is set
and whose `availableRoutes` list contains both `/health` and
`/twilio-webhook`. -/
theorem C8_unknown_route_404 (m : Method) (path : String)
    (h1 : path ≠ "/health") (h2 : path ≠ "/twilio-webhook") :
    dispatch m path = RouteTarget.notFound ∧
    notFoundResponse.1 = 404 ∧
    notFoundResponse.2.error = "Route not found" ∧
    "/health" ∈ notFoundResponse.2.availableRoutes ∧
    "/twilio-webhook" ∈ notFoundResponse.2.availableRoutes := by
  refine ⟨?_, rfl, rfl, by decide, by decide⟩
  unfold dispatch
  rw [if_neg, if_neg]
  · simp [h2]
  · simp [h1]

/-- C8 witness: `GET /nonexistent` is dispatched to the catch-all. -/
theorem C8_unknown_route_404_witness :
    dispatch Method.get "/nonexistent" = RouteTarget.notFound ∧
    notFoundResponse.1 = 404 ∧
    notFoundResponse.2.error = "Route not found" ∧
    "/health" ∈ notFoundResponse.2.availableRoutes ∧
    "/twilio-webhook" ∈ notFoundResponse.2.availableRoutes :=
  C8_unknown_route_404 Method.get "/nonexistent" (by decide) (by decide)

/-- C9: The debug flag changes no control flow of the provider-facing
endpoints: flipping it leaves the `/health` response and every
provider-facing response and forward call of `/twilio-webhook` identical;
the only response it can alter is the `message` field of the outermost
server-error boundary. -/
theorem C9_debug_flag_logging_only (url key now : String) (b : ReqBody)
    (crash : CrashPoint) (o : ForwardOutcome) (msg : String) :
    healthHandler (Config.mk url key true) now =
      healthHandler (Config.mk url key false) now ∧
    responsesOf (twilioWebhookHandler (Config.mk url key true) b now crash o) =
      responsesOf (twilioWebhookHandler (Config.mk url key false) b now crash o) ∧
    forwardsOf (twilioWebhookHandler (Config.mk url key true) b now crash o) =
      forwardsOf (twilioWebhookHandler (Config.mk url key false) b now crash o) ∧
    globalErrorHandler true msg =
      (500, ErrorBody.mk "Internal server error" msg) ∧
    globalErrorHandler false msg =
      (500, ErrorBody.mk "Internal server error" "Something went wrong") := by
  refine ⟨rfl, ?_, ?_, rfl, rfl⟩
  · cases crash with
    | noCrash => rw [responsesOf_handler_noCrash, responsesOf_handler_noCrash]
    | beforeSend => rfl
    | afterSend => rfl
  · cases crash with
    | noCrash =>
        rw [forwardsOf_handler_noCrash, forwardsOf_handler_noCrash]
        rfl
    | beforeSend => rfl
    | afterSend => rfl

/-- C10: The handler validates none of the sender, recipient or
message-identifier fields: when `From`, `To` and `MessageSid` are all
absent it still acknowledges with 200 and still issues the forward call,
the corresponding payload properties are `undefined` and hence omitted
from the serialized JSON body, and only `Body` has an explicit
empty-string default. -/
theorem C10_no_field_validation (cfg : Config) (b : ReqBody) (now : String)
    (o : ForwardOutcome)
    (hf : lookupField b "From" = none)
    (ht : lookupField b "To" = none)
    (hm : lookupField b "MessageSid" = none) :
    responsesOf (twilioWebhookHandler cfg b now CrashPoint.noCrash o) =
      [(200, twiml)] ∧
    forwardsOf (twilioWebhookHandler cfg b now CrashPoint.noCrash o) =
      [mkForwardRequest cfg b now] ∧
    (mkForwardRequest cfg b now).payload.«from» = none ∧
    (mkForwardRequest cfg b now).payload.«to» = none ∧
    (mkForwardRequest cfg b now).payload.messageId = none ∧
    (mkForwardRequest cfg b now).payload.serializedKeys =
      ["body", "mediaUrls", "receivedAt"] ∧
    (lookupField b "Body" = none → (mkForwardRequest cfg b now).payload.body = "") := by
  refine ⟨responsesOf_handler_noCrash cfg b now o,
    forwardsOf_handler_noCrash cfg b now o, ?_, ?_, ?_, ?_, ?_⟩
  · show lookupField b "From" = none
    exact hf
  · show lookupField b "To" = none
    exact ht
  · show lookupField b "MessageSid" = none
    exact hm
  · simp [mkForwardRequest, mkPayload, ForwardPayload.serializedKeys, hf, ht, hm]
  · intro hb
    show (lookupField b "Body").getD "" = ""
    rw [hb]
    rfl

/-- C10 witness: a request carrying only `NumMedia`. -/
theorem C10_no_field_validation_witness :
    responsesOf (twilioWebhookHandler (Config.mk "https://main.example" "KEY" false)
        [("NumMedia", "0")] "2024-01-01T00:00:00.000Z" CrashPoint.noCrash
        (ForwardOutcome.ok 200 "accepted")) = [(200, twiml)] ∧
    forwardsOf (twilioWebhookHandler (Config.mk "https://main.example" "KEY" false)
        [("NumMedia", "0")] "2024-01-01T00:00:00.000Z" CrashPoint.noCrash
        (ForwardOutcome.ok 200 "accepted")) =
      [mkForwardRequest (Config.mk "https://main.example" "KEY" false)
        [("NumMedia", "0")] "2024-01-01T00:00:00.000Z"] ∧
    (mkForwardRequest (Config.mk "https://main.example" "KEY" false)
        [("NumMedia", "0")] "2024-01-01T00:00:00.000Z").payload.«from» = none ∧
    (mkForwardRequest (Config.mk "https://main.example" "KEY" false)
        [("NumMedia", "0")] "2024-01-01T00:00:00.000Z").payload.«to» = none ∧
    (mkForwardRequest (Config.mk "https://main.example" "KEY" false)
        [("NumMedia", "0")] "2024-01-01T00:00:00.000Z").payload.messageId = none ∧
    (mkForwardRequest (Config.mk "https://main.example" "KEY" false)
        [("NumMedia", "0")] "2024-01-01T00:00:00.000Z").payload.serializedKeys =
      ["body", "mediaUrls", "receivedAt"] ∧
    (lookupField [("NumMedia", "0")] "Body" = none →
      (mkForwardRequest (Config.mk "https://main.example" "KEY" false)
        [("NumMedia", "0")] "2024-01-01T00:00:00.000Z").payload.body = "") :=
  C10_no_field_validation (Config.mk "https://main.example" "KEY" false)
    [("NumMedia", "0")] "2024-01-01T00:00:00.000Z" (ForwardOutcome.ok 200 "accepted")
    (by decide) (by decide) (by decide)

end DirectorApp
